import Mathlib

/-!
Verification of the footballytics data pipeline: the fetch/cache/fallback
layer (`FootballAPI`, file `footballApi`) and the tab-routing controller
(`TabManager`, file `src/utils/tabManager.ts`), embedded shallowly.

Modelling conventions:
* JSON values are the inductive `Json`; `undefined` is `Option.none` where a
  field may be absent.
* The browser HTTP stack is an `Oracle : String → Option Json`: for a given
  endpoint, `some payload` models a 2xx response with a parseable JSON body
  and `none` models any transport failure (network error, non-2xx status,
  unparseable body).
* `Date.now()` is an explicit `now : Int` argument (epoch milliseconds); the
  ambient date formatter used by the mock events dataset is the `Env`
  parameter.
* The cache `Map` is an association list threaded through each call;
  `FetchOutcome.liveCalls` counts the live HTTP requests the call performed
  (0 or 1), so cache-hit claims are statements about that counter.
* JavaScript truthiness (`x || y`, `parseInt(x) || 0`) is modelled by
  `jsTruthy`, `jsOrInt`, `jsOrJsonD`: a parsed `0`, an empty string, `null`
  and an absent value are falsy.
-/

namespace Footballytics

/-- A JSON-like value. Numbers are integers: every numeric literal in the
source datasets is an integer. -/
inductive Json where
  | null : Json
  | bool (b : Bool) : Json
  | num (n : Int) : Json
  | str (s : String) : Json
  | arr (elems : List Json) : Json
  | obj (fields : List (String × Json)) : Json

mutual

/-- Decidable equality of JSON values (the automatic derivation does not
handle the nesting through lists). -/
def Json.decEq : (a b : Json) → Decidable (a = b)
  | .null, .null => isTrue rfl
  | .null, .bool _ => isFalse (fun h => Json.noConfusion h)
  | .null, .num _ => isFalse (fun h => Json.noConfusion h)
  | .null, .str _ => isFalse (fun h => Json.noConfusion h)
  | .null, .arr _ => isFalse (fun h => Json.noConfusion h)
  | .null, .obj _ => isFalse (fun h => Json.noConfusion h)
  | .bool _, .null => isFalse (fun h => Json.noConfusion h)
  | .bool a, .bool b =>
      match Bool.decEq a b with
      | isTrue h => isTrue (congrArg Json.bool h)
      | isFalse h => isFalse (fun e => h (Json.bool.inj e))
  | .bool _, .num _ => isFalse (fun h => Json.noConfusion h)
  | .bool _, .str _ => isFalse (fun h => Json.noConfusion h)
  | .bool _, .arr _ => isFalse (fun h => Json.noConfusion h)
  | .bool _, .obj _ => isFalse (fun h => Json.noConfusion h)
  | .num _, .null => isFalse (fun h => Json.noConfusion h)
  | .num _, .bool _ => isFalse (fun h => Json.noConfusion h)
  | .num a, .num b =>
      match Int.decEq a b with
      | isTrue h => isTrue (congrArg Json.num h)
      | isFalse h => isFalse (fun e => h (Json.num.inj e))
  | .num _, .str _ => isFalse (fun h => Json.noConfusion h)
  | .num _, .arr _ => isFalse (fun h => Json.noConfusion h)
  | .num _, .obj _ => isFalse (fun h => Json.noConfusion h)
  | .str _, .null => isFalse (fun h => Json.noConfusion h)
  | .str _, .bool _ => isFalse (fun h => Json.noConfusion h)
  | .str _, .num _ => isFalse (fun h => Json.noConfusion h)
  | .str a, .str b =>
      match String.decEq a b with
      | isTrue h => isTrue (congrArg Json.str h)
      | isFalse h => isFalse (fun e => h (Json.str.inj e))
  | .str _, .arr _ => isFalse (fun h => Json.noConfusion h)
  | .str _, .obj _ => isFalse (fun h => Json.noConfusion h)
  | .arr _, .null => isFalse (fun h => Json.noConfusion h)
  | .arr _, .bool _ => isFalse (fun h => Json.noConfusion h)
  | .arr _, .num _ => isFalse (fun h => Json.noConfusion h)
  | .arr _, .str _ => isFalse (fun h => Json.noConfusion h)
  | .arr as, .arr bs =>
      match Json.decEqList as bs with
      | isTrue h => isTrue (congrArg Json.arr h)
      | isFalse h => isFalse (fun e => h (Json.arr.inj e))
  | .arr _, .obj _ => isFalse (fun h => Json.noConfusion h)
  | .obj _, .null => isFalse (fun h => Json.noConfusion h)
  | .obj _, .bool _ => isFalse (fun h => Json.noConfusion h)
  | .obj _, .num _ => isFalse (fun h => Json.noConfusion h)
  | .obj _, .str _ => isFalse (fun h => Json.noConfusion h)
  | .obj _, .arr _ => isFalse (fun h => Json.noConfusion h)
  | .obj fs, .obj gs =>
      match Json.decEqFields fs gs with
      | isTrue h => isTrue (congrArg Json.obj h)
      | isFalse h => isFalse (fun e => h (Json.obj.inj e))

/-- Decidable equality of JSON arrays. -/
def Json.decEqList : (as bs : List Json) → Decidable (as = bs)
  | [], [] => isTrue rfl
  | [], _ :: _ => isFalse (fun h => List.noConfusion h)
  | _ :: _, [] => isFalse (fun h => List.noConfusion h)
  | a :: as, b :: bs =>
      match Json.decEq a b with
      | isFalse h => isFalse (fun e => h (List.cons.inj e).1)
      | isTrue h1 =>
          match Json.decEqList as bs with
          | isTrue h2 => isTrue (by rw [h1, h2])
          | isFalse h2 => isFalse (fun e => h2 (List.cons.inj e).2)

/-- Decidable equality of JSON object bodies. -/
def Json.decEqFields : (fs gs : List (String × Json)) → Decidable (fs = gs)
  | [], [] => isTrue rfl
  | [], _ :: _ => isFalse (fun h => List.noConfusion h)
  | _ :: _, [] => isFalse (fun h => List.noConfusion h)
  | (k, v) :: fs, (l, w) :: gs =>
      match String.decEq k l with
      | isFalse h => isFalse (fun e => h (congrArg Prod.fst (List.cons.inj e).1))
      | isTrue h1 =>
          match Json.decEq v w with
          | isFalse h => isFalse (fun e => h (congrArg Prod.snd (List.cons.inj e).1))
          | isTrue h2 =>
              match Json.decEqFields fs gs with
              | isTrue h3 => isTrue (by rw [h1, h2, h3])
              | isFalse h3 => isFalse (fun e => h3 (List.cons.inj e).2)

end

instance : DecidableEq Json := Json.decEq

/-- First field of the given name in a JSON object body. -/
def lookupField : List (String × Json) → String → Option Json
  | [], _ => none
  | (k, v) :: rest, key => if k = key then some v else lookupField rest key

/-- JavaScript property access `j.key`: `none` models `undefined` (also for
access on a non-object). -/
def Json.get (j : Json) (key : String) : Option Json :=
  match j with
  | .obj fields => lookupField fields key
  | _ => none

/-- JavaScript truthiness of a defined value. -/
def jsTruthy : Json → Bool
  | .null => false
  | .bool b => b
  | .num n => n != 0
  | .str s => s != ""
  | .arr _ => true
  | .obj _ => true

/-- `a || b` where `a` may be `undefined` and the result is again a possibly
undefined value. -/
def jsOrJson (a b : Option Json) : Option Json :=
  match a with
  | some v => if jsTruthy v then some v else b
  | none => b

/-- `a || d` where the fallback `d` is a defined value. -/
def jsOrJsonD (a : Option Json) (d : Json) : Json :=
  match a with
  | some v => if jsTruthy v then v else d
  | none => d

/-- Value of a digit run, `none` when it is empty. -/
def digitsValue (cs : List Char) : Option Nat :=
  let ds := cs.takeWhile Char.isDigit
  if ds.isEmpty then none
  else some (ds.foldl (fun a c => a * 10 + (c.toNat - 48)) 0)

/-- Leading-integer parse of a character list: optional sign, then a digit
run; later characters are ignored, as `parseInt` ignores them. -/
def jsParseIntChars : List Char → Option Int
  | '-' :: rest => (digitsValue rest).map (fun n => -(n : Int))
  | '+' :: rest => (digitsValue rest).map (fun n => (n : Int))
  | cs => (digitsValue cs).map (fun n => (n : Int))

/-- JavaScript `parseInt(s)` on the decimal strings the provider sends:
leading spaces skipped, optional sign, leading digit run, `none` for `NaN`.
(The hexadecimal prefix form of `parseInt` does not occur in this domain.) -/
def jsParseIntString (s : String) : Option Int :=
  jsParseIntChars (s.toList.dropWhile (fun c => c = ' '))

/-- `parseInt` applied to a possibly-absent JSON value: a string is parsed, a
number is already integral, everything else (absent, `null`, objects,
booleans) is `NaN`, modelled `none`. -/
def jsParseInt : Option Json → Option Int
  | some (.str s) => jsParseIntString s
  | some (.num n) => some n
  | _ => none

/-- `parseInt(x) || fallback`: `NaN` and a parsed `0` are both falsy. -/
def jsOrInt (x : Option Int) (fallback : Int) : Int :=
  match x with
  | some n => if n = 0 then fallback else n
  | none => fallback

/-- `parseInt(x) || null`: `NaN` and a parsed `0` both give `null`. -/
def jsOrNull (x : Option Int) : Option Int :=
  match x with
  | some n => if n = 0 then none else some n
  | none => none

/-- `needle.isPrefixOf hay` written out, to keep evaluation elementary. -/
def charsStartWith : List Char → List Char → Bool
  | [], _ => true
  | _ :: _, [] => false
  | a :: as, b :: bs => a == b && charsStartWith as bs

/-- Substring search on character lists. -/
def listContains (needle : List Char) : List Char → Bool
  | [] => needle.isEmpty
  | c :: rest => charsStartWith needle (c :: rest) || listContains needle rest

/-- JavaScript `s.includes(pat)`. -/
def strIncludes (s pat : String) : Bool :=
  listContains pat.toList s.toList

/-- `strTeam?.substring(0, 3).toUpperCase()`: optional chaining, so an absent
or null team name gives `undefined`. -/
def substr3Upper : Option Json → Option Json
  | some (.str s) => some (.str ((s.take 3).toUpper))
  | _ => none

/-- Ambient browser facilities the API object reads while building mock
data: `dateStr t` models `new Date(t).toISOString().split('T')[0]`. -/
structure Env where
  dateStr : Int → String

/-- The live HTTP stack: `some payload` is a 2xx response with parseable
body, `none` any transport failure. -/
def Oracle := String → Option Json

/-- One cache slot: `{ data, timestamp }` as stored by `fetchData`. -/
structure CacheEntry where
  data : Json
  timestamp : Int
  deriving DecidableEq

/-- The `Map` held in `this.cache`, as an association list. -/
abbrev Cache := List (String × CacheEntry)

/-- `this.cache.get(key)`. -/
def cacheGet : Cache → String → Option CacheEntry
  | [], _ => none
  | (k, e) :: rest, key => if k = key then some e else cacheGet rest key

/-- `this.cache.set(key, e)`: overwrites any prior entry for the key. -/
def cacheSet (st : Cache) (key : String) (e : CacheEntry) : Cache :=
  (key, e) :: st.filter (fun p => p.1 != key)

/-- `this.cacheExpiry`: ten minutes in milliseconds. -/
def cacheExpiry : Int := 600000

def defaultBadge : String :=
  "https://www.thesportsdb.com/images/media/team/badge/default.png"

/-- The static mock payload of `getMockData` for team endpoints. -/
def mockTeamsJson : Json := .obj
  [ ("teams", .arr
      [ .obj [ ("idTeam", .str "133604"), ("strTeam", .str "Arsenal"),
          ("strTeamShort", .str "ARS"),
          ("strBadge", .str "https://www.thesportsdb.com/images/media/team/badge/arsenal.png"),
          ("intFormedYear", .str "1886"), ("strStadium", .str "Emirates Stadium"),
          ("strWebsite", .str "www.arsenal.com"), ("strLocation", .str "London, England") ]
      , .obj [ ("idTeam", .str "133612"), ("strTeam", .str "Chelsea"),
          ("strTeamShort", .str "CHE"),
          ("strBadge", .str "https://www.thesportsdb.com/images/media/team/badge/chelsea.png"),
          ("intFormedYear", .str "1905"), ("strStadium", .str "Stamford Bridge"),
          ("strWebsite", .str "www.chelseafc.com"), ("strLocation", .str "London, England") ]
      , .obj [ ("idTeam", .str "133602"), ("strTeam", .str "Liverpool"),
          ("strTeamShort", .str "LIV"),
          ("strBadge", .str "https://www.thesportsdb.com/images/media/team/badge/liverpool.png"),
          ("intFormedYear", .str "1892"), ("strStadium", .str "Anfield"),
          ("strWebsite", .str "www.liverpoolfc.com"), ("strLocation", .str "Liverpool, England") ]
      , .obj [ ("idTeam", .str "133616"), ("strTeam", .str "Manchester City"),
          ("strTeamShort", .str "MCI"),
          ("strBadge", .str "https://www.thesportsdb.com/images/media/team/badge/manchester-city.png"),
          ("intFormedYear", .str "1880"), ("strStadium", .str "Etihad Stadium"),
          ("strWebsite", .str "www.mancity.com"), ("strLocation", .str "Manchester, England") ] ])
  , ("_isMockData", .bool true)
  , ("_notice", .str "This is demonstration data. In production, this would be live data from TheSportsDB API.") ]

/-- The static mock payload of `getMockData` for league-table endpoints. -/
def mockTableJson : Json := .obj
  [ ("table", .arr
      [ .obj [ ("intRank", .str "1"), ("idTeam", .str "133602"), ("strTeam", .str "Liverpool"),
          ("intPlayed", .str "15"), ("intWin", .str "11"), ("intDraw", .str "3"), ("intLoss", .str "1"),
          ("intGoalsFor", .str "29"), ("intGoalsAgainst", .str "8"), ("intGoalDifference", .str "21"),
          ("intPoints", .str "36"),
          ("strBadge", .str "https://www.thesportsdb.com/images/media/team/badge/liverpool.png"),
          ("strForm", .str "WWWDW") ]
      , .obj [ ("intRank", .str "2"), ("idTeam", .str "133604"), ("strTeam", .str "Arsenal"),
          ("intPlayed", .str "15"), ("intWin", .str "9"), ("intDraw", .str "5"), ("intLoss", .str "1"),
          ("intGoalsFor", .str "26"), ("intGoalsAgainst", .str "12"), ("intGoalDifference", .str "14"),
          ("intPoints", .str "32"),
          ("strBadge", .str "https://www.thesportsdb.com/images/media/team/badge/arsenal.png"),
          ("strForm", .str "WWDLD") ]
      , .obj [ ("intRank", .str "3"), ("idTeam", .str "133616"), ("strTeam", .str "Manchester City"),
          ("intPlayed", .str "15"), ("intWin", .str "9"), ("intDraw", .str "4"), ("intLoss", .str "2"),
          ("intGoalsFor", .str "31"), ("intGoalsAgainst", .str "15"), ("intGoalDifference", .str "16"),
          ("intPoints", .str "31"),
          ("strBadge", .str "https://www.thesportsdb.com/images/media/team/badge/manchester-city.png"),
          ("strForm", .str "WLDWW") ]
      , .obj [ ("intRank", .str "4"), ("idTeam", .str "133612"), ("strTeam", .str "Chelsea"),
          ("intPlayed", .str "15"), ("intWin", .str "8"), ("intDraw", .str "4"), ("intLoss", .str "3"),
          ("intGoalsFor", .str "28"), ("intGoalsAgainst", .str "18"), ("intGoalDifference", .str "10"),
          ("intPoints", .str "28"),
          ("strBadge", .str "https://www.thesportsdb.com/images/media/team/badge/chelsea.png"),
          ("strForm", .str "WWLWD") ] ])
  , ("_isMockData", .bool true)
  , ("_notice", .str "This is demonstration data showing Premier League standings.") ]

/-- The mock payload of `getMockData` for event endpoints; the dates are
derived from the current time through `env.dateStr`. -/
def mockEventsJson (env : Env) (now : Int) : Json := .obj
  [ ("events", .arr
      [ .obj [ ("idEvent", .str "1"), ("strEvent", .str "Arsenal vs Chelsea"),
          ("strHomeTeam", .str "Arsenal"), ("strAwayTeam", .str "Chelsea"),
          ("intHomeScore", .str "2"), ("intAwayScore", .str "1"),
          ("dateEvent", .str (env.dateStr now)), ("strTime", .str "17:30:00"),
          ("strStatus", .str "Match Finished"), ("strSeason", .str "2024-2025"),
          ("intRound", .str "15"), ("matchday", .num 15) ]
      , .obj [ ("idEvent", .str "2"), ("strEvent", .str "Manchester City vs Liverpool"),
          ("strHomeTeam", .str "Manchester City"), ("strAwayTeam", .str "Liverpool"),
          ("intHomeScore", .str "1"), ("intAwayScore", .str "3"),
          ("dateEvent", .str (env.dateStr (now - 86400000))), ("strTime", .str "15:00:00"),
          ("strStatus", .str "Match Finished"), ("strSeason", .str "2024-2025"),
          ("intRound", .str "15"), ("matchday", .num 15) ]
      , .obj [ ("idEvent", .str "3"), ("strEvent", .str "Liverpool vs Arsenal"),
          ("strHomeTeam", .str "Liverpool"), ("strAwayTeam", .str "Arsenal"),
          ("intHomeScore", .null), ("intAwayScore", .null),
          ("dateEvent", .str (env.dateStr (now + 86400000))), ("strTime", .str "16:00:00"),
          ("strStatus", .str "Not Started"), ("strSeason", .str "2024-2025"),
          ("intRound", .str "16"), ("matchday", .num 16) ]
      , .obj [ ("idEvent", .str "4"), ("strEvent", .str "Chelsea vs Manchester City"),
          ("strHomeTeam", .str "Chelsea"), ("strAwayTeam", .str "Manchester City"),
          ("intHomeScore", .str "0"), ("intAwayScore", .str "2"),
          ("dateEvent", .str (env.dateStr (now - 2 * 86400000))), ("strTime", .str "14:30:00"),
          ("strStatus", .str "Match Finished"), ("strSeason", .str "2024-2025"),
          ("intRound", .str "14"), ("matchday", .num 14) ]
      , .obj [ ("idEvent", .str "5"), ("strEvent", .str "Arsenal vs Liverpool"),
          ("strHomeTeam", .str "Arsenal"), ("strAwayTeam", .str "Liverpool"),
          ("intHomeScore", .str "3"), ("intAwayScore", .str "1"),
          ("dateEvent", .str (env.dateStr (now - 3 * 86400000))), ("strTime", .str "17:00:00"),
          ("strStatus", .str "Match Finished"), ("strSeason", .str "2024-2025"),
          ("intRound", .str "14"), ("matchday", .num 14) ]
      , .obj [ ("idEvent", .str "6"), ("strEvent", .str "Manchester City vs Arsenal"),
          ("strHomeTeam", .str "Manchester City"), ("strAwayTeam", .str "Arsenal"),
          ("intHomeScore", .str "1"), ("intAwayScore", .str "1"),
          ("dateEvent", .str (env.dateStr (now - 7 * 86400000))), ("strTime", .str "16:30:00"),
          ("strStatus", .str "Match Finished"), ("strSeason", .str "2024-2025"),
          ("intRound", .str "13"), ("matchday", .num 13) ] ])
  , ("_isMockData", .bool true)
  , ("_notice", .str "This is demonstration data showing recent and upcoming matches with proper matchday information.") ]

/-- `getMockData(endpoint)`: substring dispatch over the endpoint key, with a
generic marker object as the last resort. -/
def getMockData (env : Env) (now : Int) (endpoint : String) : Json :=
  if strIncludes endpoint "search_all_teams" || strIncludes endpoint "teams" then
    mockTeamsJson
  else if strIncludes endpoint "lookuptable" || strIncludes endpoint "table" then
    mockTableJson
  else if strIncludes endpoint "events" || strIncludes endpoint "matches" then
    mockEventsJson env now
  else
    .obj [ ("message", .str "Mock data not available for this endpoint")
         , ("_isMockData", .bool true) ]

/-- What one `fetchData` call produces: the returned value, the cache map
after the call, and how many live HTTP requests were performed. -/
structure FetchOutcome where
  data : Json
  cache : Cache
  liveCalls : Nat
  deriving DecidableEq

/-- The live branch of `fetchData`: on success store `{data, now}` under the
endpoint key and return the payload; on any failure return the mock
substitute and leave the cache untouched. -/
def fetchLive (env : Env) (oracle : Oracle) (now : Int) (st : Cache)
    (endpoint : String) : FetchOutcome :=
  match oracle endpoint with
  | some data => ⟨data, cacheSet st endpoint ⟨data, now⟩, 1⟩
  | none => ⟨getMockData env now endpoint, st, 1⟩

/-- `FootballAPI.fetchData`: fresh cache hit short-circuits, otherwise the
live branch runs. Totality of this function is the never-raises contract. -/
def fetchData (env : Env) (oracle : Oracle) (now : Int) (st : Cache)
    (endpoint : String) : FetchOutcome :=
  match cacheGet st endpoint with
  | some cached =>
      if now - cached.timestamp < cacheExpiry then ⟨cached.data, st, 0⟩
      else fetchLive env oracle now st endpoint
  | none => fetchLive env oracle now st endpoint

/-- `getLeagueId`: competition code to TheSportsDB league id, defaulting to
the Premier League id. -/
def getLeagueId (competition : String) : String :=
  if competition = "PL" then "4328"
  else if competition = "PD" then "4335"
  else if competition = "SA" then "4332"
  else if competition = "BL1" then "4331"
  else if competition = "FL1" then "4334"
  else "4328"

/-- `getCompetitionName`: competition code to display name; the default is
the generic string, not the Premier League name. -/
def getCompetitionName (code : String) : String :=
  if code = "PL" then "Premier League"
  else if code = "PD" then "La Liga"
  else if code = "SA" then "Serie A"
  else if code = "BL1" then "Bundesliga"
  else if code = "FL1" then "Ligue 1"
  else "Football League"

/-- `getCountryForCompetition`, defaulting to England. -/
def getCountryForCompetition (competition : String) : String :=
  if competition = "PL" then "England"
  else if competition = "PD" then "Spain"
  else if competition = "SA" then "Italy"
  else if competition = "BL1" then "Germany"
  else if competition = "FL1" then "France"
  else "England"

/-- `getLeagueName`: competition code to the league slug used by the search
endpoint, defaulting to the Premier League slug. -/
def getLeagueName (competition : String) : String :=
  if competition = "PL" then "English_Premier_League"
  else if competition = "PD" then "Spanish_La_Liga"
  else if competition = "SA" then "Italian_Serie_A"
  else if competition = "BL1" then "German_Bundesliga"
  else if competition = "FL1" then "French_Ligue_1"
  else "English_Premier_League"

/-- The team sub-object of a standings row as `fetchStandings` builds it. -/
structure TeamRef where
  id : Option Json
  name : Option Json
  shortName : Option Json
  tla : Option Json
  crest : Json
  deriving DecidableEq

/-- A normalized standings row, as mapped by `fetchStandings`. -/
structure StandingsRow where
  position : Int
  team : TeamRef
  playedGames : Int
  won : Int
  draw : Int
  lost : Int
  points : Int
  goalsFor : Int
  goalsAgainst : Int
  goalDifference : Int
  form : Json
  deriving DecidableEq

/-- The row mapping of `fetchStandings` (`data.table.map((team, index) => ...)`):
every numeric field goes through `parseInt(...) || fallback`; the fallback is
0 for the count fields, `index + 1` for the position, and the recomputed
difference of the parsed goals for the goal difference. -/
def mapStandingsRow (team : Json) (index : Nat) : StandingsRow :=
  { position := jsOrInt (jsParseInt (team.get "intRank")) ((index : Int) + 1)
  , team :=
    { id := team.get "idTeam"
    , name := team.get "strTeam"
    , shortName := team.get "strTeam"
    , tla := substr3Upper (team.get "strTeam")
    , crest := jsOrJsonD (team.get "strBadge") (.str defaultBadge) }
  , playedGames := jsOrInt (jsParseInt (team.get "intPlayed")) 0
  , won := jsOrInt (jsParseInt (team.get "intWin")) 0
  , draw := jsOrInt (jsParseInt (team.get "intDraw")) 0
  , lost := jsOrInt (jsParseInt (team.get "intLoss")) 0
  , points := jsOrInt (jsParseInt (team.get "intPoints")) 0
  , goalsFor := jsOrInt (jsParseInt (team.get "intGoalsFor")) 0
  , goalsAgainst := jsOrInt (jsParseInt (team.get "intGoalsAgainst")) 0
  , goalDifference := jsOrInt (jsParseInt (team.get "intGoalDifference"))
      (jsOrInt (jsParseInt (team.get "intGoalsFor")) 0 -
        jsOrInt (jsParseInt (team.get "intGoalsAgainst")) 0)
  , form := jsOrJsonD (team.get "strForm") (.str "N/A") }

/-- The guard and mapping of the live branch of `fetchStandings`:
`if (data.table && Array.isArray(data.table))`, then the row map. `none`
means the guard failed and the season mock dataset is substituted. -/
def standingsTableOfJson (data : Json) : Option (List StandingsRow) :=
  match data.get "table" with
  | some (.arr rows) => some (rows.mapIdx (fun i row => mapStandingsRow row i))
  | _ => none

/-- A normalized team record, as produced by `fetchTeams` and by
`getMockTeamsForCompetition`. -/
structure Team where
  id : Option Json
  name : Option Json
  shortName : Option Json
  tla : Option Json
  crest : Json
  founded : Option Int
  venue : Json
  website : Json
  location : Json
  deriving DecidableEq

/-- Mapping of a search-endpoint team object inside `fetchTeams`. -/
def mapSearchTeam (team : Json) : Team :=
  { id := team.get "idTeam"
  , name := team.get "strTeam"
  , shortName := jsOrJson (team.get "strTeamShort") (team.get "strTeam")
  , tla := jsOrJson (team.get "strTeamShort") (substr3Upper (team.get "strTeam"))
  , crest := jsOrJsonD (team.get "strBadge") (jsOrJsonD (team.get "strTeamBadge") (.str defaultBadge))
  , founded := jsOrNull (jsParseInt (team.get "intFormedYear"))
  , venue := jsOrJsonD (team.get "strStadium") (.str "Unknown Stadium")
  , website := jsOrJsonD (team.get "strWebsite") (.str "")
  , location := jsOrJsonD (team.get "strLocation") (jsOrJsonD (team.get "strCountry") (.str "")) }

/-- Mapping of a table-endpoint row inside `fetchTeams`. -/
def mapTableTeam (team : Json) : Team :=
  { id := team.get "idTeam"
  , name := team.get "strTeam"
  , shortName := team.get "strTeam"
  , tla := substr3Upper (team.get "strTeam")
  , crest := jsOrJsonD (team.get "strBadge") (.str defaultBadge)
  , founded := none
  , venue := .str "Unknown Stadium"
  , website := .str ""
  , location := .str "" }

/-- Shorthand for one literal row of `getMockTeamsForCompetition`. -/
def mkMockTeam (tid tname tshort ttla tcrest : String) (tfounded : Int)
    (tvenue tsite tloc : String) : Team :=
  { id := some (.str tid), name := some (.str tname), shortName := some (.str tshort)
  , tla := some (.str ttla), crest := .str tcrest, founded := some tfounded
  , venue := .str tvenue, website := .str tsite, location := .str tloc }

def mockTeamsPL : List Team :=
  [ mkMockTeam "133604" "Arsenal" "Arsenal" "ARS" "https://www.thesportsdb.com/images/media/team/badge/arsenal.png" 1886 "Emirates Stadium" "www.arsenal.com" "London, England"
  , mkMockTeam "133612" "Chelsea" "Chelsea" "CHE" "https://www.thesportsdb.com/images/media/team/badge/chelsea.png" 1905 "Stamford Bridge" "www.chelseafc.com" "London, England"
  , mkMockTeam "133602" "Liverpool" "Liverpool" "LIV" "https://www.thesportsdb.com/images/media/team/badge/liverpool.png" 1892 "Anfield" "www.liverpoolfc.com" "Liverpool, England"
  , mkMockTeam "133613" "Manchester City" "Man City" "MCI" "https://www.thesportsdb.com/images/media/team/badge/man_city.png" 1880 "Etihad Stadium" "www.mancity.com" "Manchester, England"
  , mkMockTeam "133614" "Manchester United" "Man United" "MUN" "https://www.thesportsdb.com/images/media/team/badge/man_united.png" 1878 "Old Trafford" "www.manutd.com" "Manchester, England"
  , mkMockTeam "133615" "Tottenham Hotspur" "Tottenham" "TOT" "https://www.thesportsdb.com/images/media/team/badge/tottenham.png" 1882 "Tottenham Hotspur Stadium" "www.tottenhamhotspur.com" "London, England"
  , mkMockTeam "133599" "Wolverhampton Wanderers" "Wolves" "WOL" "https://www.thesportsdb.com/images/media/team/badge/wolves.png" 1877 "Molineux Stadium" "www.wolves.co.uk" "Wolverhampton, England"
  , mkMockTeam "134355" "Brentford" "Brentford" "BRE" "https://www.thesportsdb.com/images/media/team/badge/brentford.png" 1889 "Brentford Community Stadium" "www.brentfordfc.com" "London, England"
  , mkMockTeam "133616" "Newcastle United" "Newcastle" "NEW" "https://www.thesportsdb.com/images/media/team/badge/newcastle.png" 1892 "St. James' Park" "www.nufc.co.uk" "Newcastle, England"
  , mkMockTeam "133617" "Aston Villa" "Aston Villa" "AVL" "https://www.thesportsdb.com/images/media/team/badge/aston_villa.png" 1874 "Villa Park" "www.avfc.co.uk" "Birmingham, England" ]

def mockTeamsPD : List Team :=
  [ mkMockTeam "134301" "Real Madrid" "Real Madrid" "RMA" "https://www.thesportsdb.com/images/media/team/badge/real_madrid.png" 1902 "Santiago Bernabéu" "www.realmadrid.com" "Madrid, Spain"
  , mkMockTeam "134302" "Barcelona" "Barcelona" "BAR" "https://www.thesportsdb.com/images/media/team/badge/barcelona.png" 1899 "Camp Nou" "www.fcbarcelona.com" "Barcelona, Spain"
  , mkMockTeam "134303" "Atletico Madrid" "Atletico" "ATM" "https://www.thesportsdb.com/images/media/team/badge/atletico_madrid.png" 1903 "Wanda Metropolitano" "www.atleticodemadrid.com" "Madrid, Spain"
  , mkMockTeam "134304" "Sevilla" "Sevilla" "SEV" "https://www.thesportsdb.com/images/media/team/badge/sevilla.png" 1890 "Ramón Sánchez Pizjuán" "www.sevillafc.es" "Sevilla, Spain"
  , mkMockTeam "134305" "Valencia" "Valencia" "VAL" "https://www.thesportsdb.com/images/media/team/badge/valencia.png" 1919 "Mestalla" "www.valenciacf.com" "Valencia, Spain" ]

def mockTeamsSA : List Team :=
  [ mkMockTeam "135301" "Inter Milan" "Inter" "INT" "https://www.thesportsdb.com/images/media/team/badge/inter_milan.png" 1908 "San Siro" "www.inter.it" "Milan, Italy"
  , mkMockTeam "135302" "AC Milan" "Milan" "MIL" "https://www.thesportsdb.com/images/media/team/badge/ac_milan.png" 1899 "San Siro" "www.acmilan.com" "Milan, Italy"
  , mkMockTeam "135303" "Juventus" "Juventus" "JUV" "https://www.thesportsdb.com/images/media/team/badge/juventus.png" 1897 "Allianz Stadium" "www.juventus.com" "Turin, Italy"
  , mkMockTeam "135304" "Napoli" "Napoli" "NAP" "https://www.thesportsdb.com/images/media/team/badge/napoli.png" 1926 "Stadio Diego Armando Maradona" "www.sscnapoli.it" "Naples, Italy"
  , mkMockTeam "135305" "AS Roma" "Roma" "ROM" "https://www.thesportsdb.com/images/media/team/badge/as_roma.png" 1927 "Stadio Olimpico" "www.asroma.com" "Rome, Italy" ]

def mockTeamsBL1 : List Team :=
  [ mkMockTeam "136301" "Bayern Munich" "Bayern" "BAY" "https://www.thesportsdb.com/images/media/team/badge/bayern_munich.png" 1900 "Allianz Arena" "www.fcbayern.com" "Munich, Germany"
  , mkMockTeam "136302" "Borussia Dortmund" "Dortmund" "BVB" "https://www.thesportsdb.com/images/media/team/badge/borussia_dortmund.png" 1909 "Signal Iduna Park" "www.bvb.de" "Dortmund, Germany"
  , mkMockTeam "136303" "RB Leipzig" "Leipzig" "RBL" "https://www.thesportsdb.com/images/media/team/badge/rb_leipzig.png" 2009 "Red Bull Arena" "www.rbleipzig.com" "Leipzig, Germany"
  , mkMockTeam "136304" "Bayer Leverkusen" "Leverkusen" "B04" "https://www.thesportsdb.com/images/media/team/badge/bayer_leverkusen.png" 1904 "BayArena" "www.bayer04.de" "Leverkusen, Germany"
  , mkMockTeam "136305" "Eintracht Frankfurt" "Frankfurt" "SGE" "https://www.thesportsdb.com/images/media/team/badge/eintracht_frankfurt.png" 1899 "Deutsche Bank Park" "www.eintracht.de" "Frankfurt, Germany" ]

def mockTeamsFL1 : List Team :=
  [ mkMockTeam "137301" "Paris Saint-Germain" "PSG" "PSG" "https://www.thesportsdb.com/images/media/team/badge/psg.png" 1970 "Parc des Princes" "www.psg.fr" "Paris, France"
  , mkMockTeam "137302" "AS Monaco" "Monaco" "MON" "https://www.thesportsdb.com/images/media/team/badge/monaco.png" 1924 "Stade Louis II" "www.asmonaco.com" "Monaco"
  , mkMockTeam "137303" "Marseille" "Marseille" "OM" "https://www.thesportsdb.com/images/media/team/badge/marseille.png" 1899 "Orange Vélodrome" "www.om.fr" "Marseille, France"
  , mkMockTeam "137304" "Lille" "Lille" "LIL" "https://www.thesportsdb.com/images/media/team/badge/lille.png" 1944 "Stade Pierre-Mauroy" "www.losc.fr" "Lille, France"
  , mkMockTeam "137305" "Nice" "Nice" "NIC" "https://www.thesportsdb.com/images/media/team/badge/nice.png" 1904 "Allianz Riviera" "www.ogcnice.com" "Nice, France" ]

/-- `getMockTeamsForCompetition`: static per-competition team list, with the
Premier League list as the default. -/
def getMockTeamsForCompetition (competition : String) : List Team :=
  if competition = "PL" then mockTeamsPL
  else if competition = "PD" then mockTeamsPD
  else if competition = "SA" then mockTeamsSA
  else if competition = "BL1" then mockTeamsBL1
  else if competition = "FL1" then mockTeamsFL1
  else mockTeamsPL

/-- The three endpoint probes of `fetchTeams`, in order. -/
def teamsEndpoints (competition : String) (season : Option String) : List String :=
  [ "/search_all_teams.php?l=" ++ getLeagueName competition
  , "/lookuptable.php?l=" ++ getLeagueId competition ++ "&s=" ++ season.getD "2024-2025"
  , "/search_all_teams.php?s=Soccer&c=" ++ getCountryForCompetition competition ]

/-- The probing loop of `fetchTeams`: for each endpoint fetch, then append
the mapped `teams` array if present, else the mapped `table` array if
present, else nothing. (`fetchData` is total, so the `catch` of the loop is
dead in the model.) The cache is threaded through the calls. -/
def collectTeams (env : Env) (oracle : Oracle) (now : Int) :
    Cache → List String → List Team × Cache
  | st, [] => ([], st)
  | st, endpoint :: rest =>
      let out := fetchData env oracle now st endpoint
      let newTeams :=
        match out.data.get "teams" with
        | some (.arr ts) => ts.map mapSearchTeam
        | _ =>
          match out.data.get "table" with
          | some (.arr rows) => rows.map mapTableTeam
          | _ => []
      let next := collectTeams env oracle now out.cache rest
      (newTeams ++ next.1, next.2)

/-- Its comparison of team identifiers:
`===` on the raw field values. -/
def teamIdBeq (a b : Option Json) : Bool := a == b

/-- Recursion core of the de-duplication, structural on a fuel bound so the
function computes by reduction: each step keeps the head and strips every
later element carrying the same identifier. The fuel only has to dominate
the list length, which the filter never increases. -/
def dedupTeamsFuel : Nat → List Team → List Team
  | _, [] => []
  | 0, _ :: _ => []
  | fuel + 1, t :: ts =>
      t :: dedupTeamsFuel fuel (ts.filter (fun u => !(teamIdBeq u.id t.id)))

/-- The de-duplication of `fetchTeams`,
`allTeams.filter((team, index, self) => index === self.findIndex(t => t.id === team.id))`:
an element is kept exactly when it is the first element of the array that
carries its identifier, so this keeps the first occurrence of each id and
drops every later one, in order. -/
def dedupTeams (ts : List Team) : List Team :=
  dedupTeamsFuel ts.length ts

/-- The top-up of `fetchTeams`: when fewer than 10 unique teams remain, the
static mock teams whose ids are not already present are appended. -/
def topUpTeams (competition : String) (uniqueTeams : List Team) : List Team :=
  if uniqueTeams.length < 10 then
    uniqueTeams ++ (getMockTeamsForCompetition competition).filter
      (fun t => !(uniqueTeams.any (fun u => teamIdBeq u.id t.id)))
  else uniqueTeams

/-- Value of `fetchTeams`: `{ teams, count }`. -/
structure TeamsResult where
  teams : List Team
  count : Nat
  deriving DecidableEq

/-- `FootballAPI.fetchTeams`: probe up to three endpoints, merge, de-duplicate
by team id keeping the first occurrence, and top up from the static mock
list when fewer than 10 unique teams remain. -/
def fetchTeams (env : Env) (oracle : Oracle) (now : Int) (st : Cache)
    (competition : String) (season : Option String) : TeamsResult × Cache :=
  let collected := collectTeams env oracle now st (teamsEndpoints competition season)
  let uniqueTeams := topUpTeams competition (dedupTeams collected.1)
  (⟨uniqueTeams, uniqueTeams.length⟩, collected.2)

/-- The full-time score slot of a normalized match. -/
structure Score where
  home : Option Int
  away : Option Int
  deriving DecidableEq

/-- A normalized match record (shape produced by the events mapping; the
analytics derivation reads only `status`). -/
structure MatchRec where
  id : Option Json
  homeTeam : TeamRef
  awayTeam : TeamRef
  utcDate : String
  status : String
  score : Score
  competitionName : String
  season : Json
  matchday : Option Int
  deriving DecidableEq

/-- One standings group, `{stage, type, table}`, of a `fetchStandings`
response. -/
structure StandingsGroup where
  stage : String
  type : String
  table : List StandingsRow
  deriving DecidableEq

/-- The response shape of `fetchStandings`. -/
structure StandingsResponse where
  standings : List StandingsGroup
  competitionName : String
  competitionCode : String
  season : String
  deriving DecidableEq

/-- The response shape of `fetchCompetitionMatches`: `{ matches, count }`. -/
structure MatchesResponse where
  «matches» : List MatchRec
  count : Nat
  deriving DecidableEq

/-- `standings.standings?.[0]?.table || []` inside `fetchAnalyticsData`. -/
def firstTable (r : StandingsResponse) : List StandingsRow :=
  match r.standings with
  | [] => []
  | g :: _ => g.table

/-- One `{name, value}` entry of `leagueStats`. -/
structure AnalyticsStat where
  name : String
  value : Int
  deriving DecidableEq

/-- The summary record `fetchAnalyticsData` returns. The average is an exact
rational here; the code computes it on binary doubles and 1-decimal
rounding, modelled by `roundTo1`. -/
structure AnalyticsResult where
  totalGoals : Int
  avgGoalsPerMatch : ℚ
  topScorerGoals : Int
  topScoringTeam : Json
  topTeams : List StandingsRow
  recentMatches : List MatchRec
  leagueStats : List AnalyticsStat
  deriving DecidableEq

/-- `parseFloat(x.toFixed(1))`: rounding to one decimal place, halves up. -/
def roundTo1 (q : ℚ) : ℚ := (round (q * 10) : ℤ) / 10

/-- The all-zero summary of the `catch` branch of `fetchAnalyticsData`. -/
def zeroAnalytics : AnalyticsResult :=
  { totalGoals := 0, avgGoalsPerMatch := 0, topScorerGoals := 0
  , topScoringTeam := .str "Unknown", topTeams := [], recentMatches := []
  , leagueStats := [] }

/-- The `reduce` that finds the row with maximal `goalsFor` (strict
comparison against the running maximum, so the first row wins ties; the
`|| 0` guards are identities on integer fields). -/
def topScoringTeamData (table : List StandingsRow) : Option StandingsRow :=
  table.foldl
    (fun best team =>
      if team.goalsFor > (match best with | some m => m.goalsFor | none => 0)
      then some team else best)
    none

/-- `topScoringTeamData?.team?.name || 'Unknown'`. -/
def nameOrUnknown : Option StandingsRow → Json
  | some r =>
    match r.team.name with
    | some v => if jsTruthy v then v else .str "Unknown"
    | none => .str "Unknown"
  | none => .str "Unknown"

/-- The derivation in the `try` block of `fetchAnalyticsData`, applied to the
joined results of the two feeds. -/
def analyticsOfFeeds (standings : StandingsResponse) (matchesResp : MatchesResponse) :
    AnalyticsResult :=
  let standingsTable := firstTable standings
  let recentMatches := (matchesResp.«matches».filter (fun m => m.status == "FINISHED")).take 100
  let totalGoals := (standingsTable.map StandingsRow.goalsFor).sum
  let totalMatchesPlayed : ℚ := ((standingsTable.map StandingsRow.playedGames).sum : ℚ) / 2
  let avgGoalsPerMatch : ℚ :=
    if 0 < totalMatchesPlayed then roundTo1 ((totalGoals : ℚ) / totalMatchesPlayed) else 0
  let best := topScoringTeamData standingsTable
  { totalGoals := totalGoals
  , avgGoalsPerMatch := avgGoalsPerMatch
  , topScorerGoals := match best with | some m => m.goalsFor | none => 0
  , topScoringTeam := nameOrUnknown best
  , topTeams := standingsTable
  , recentMatches := recentMatches
  , leagueStats :=
      [ ⟨"Goals", totalGoals⟩
      , ⟨"Matches", round totalMatchesPlayed⟩
      , ⟨"Wins", (standingsTable.map StandingsRow.won).sum⟩
      , ⟨"Draws", (standingsTable.map StandingsRow.draw).sum⟩ ] }

/-- `FootballAPI.fetchAnalyticsData`: the two awaited feed calls
(`fetchStandings`, `fetchCompetitionMatches`, joined by `Promise.all`) are
abstracted as an `Except` argument; `.error` models an exception thrown by
either feed, which the surrounding try/catch converts into the all-zero
summary. -/
def fetchAnalyticsData (feeds : Except Unit (StandingsResponse × MatchesResponse)) :
    AnalyticsResult :=
  match feeds with
  | .ok (standings, matchesResp) => analyticsOfFeeds standings matchesResp
  | .error _ => zeroAnalytics

/-- An externally visible step of `TabManager.switchTab`: a call to one of
the injected React state setters, a toast, or the suspension for the awaited
data load. -/
inductive TabAction where
  | setActiveTab (tab : String)
  | setLoading (b : Bool)
  | setTabData (data : Json)
  | toastSuccess (title description : String)
  | toastFailure (title description : String)
  | awaitNetwork
  deriving DecidableEq

/-- The `TabManager` object state: the only data field the class itself
stores besides the injected callbacks and the API object. -/
structure TabManager where
  activeTab : String
  deriving DecidableEq

/-- The constructor, which stores the initial active tab. -/
def TabManager.make (activeTab : String) : TabManager := ⟨activeTab⟩

/-- `getCurrentTab()`. -/
def TabManager.getCurrentTab (m : TabManager) : String := m.activeTab

/-- `isTabActive(tabId)`: `this.activeTab === tabId`. -/
def TabManager.isTabActive (m : TabManager) (tabId : String) : Bool :=
  m.activeTab == tabId

/-- `getTabDisplayName`. -/
def getTabDisplayName (tabId : String) : String :=
  if tabId = "live-matches" then "Live matches"
  else if tabId = "league-tables" then "League standings"
  else if tabId = "team-stats" then "Teams information"
  else if tabId = "recent-results" then "Recent results"
  else "Data"

/-- The fixed error payload stored by `handleTabError`. -/
def errorTabData : Json := .obj
  [ ("error", .bool true)
  , ("errorMessage", .str "Failed to load data from TheSportsDB API")
  , ("userFriendlyMessage", .str "Unable to connect to sports data service. This may be due to API access restrictions or network issues.")
  , ("matches", .arr []), ("teams", .arr []), ("standings", .arr []) ]

/-- The payload the `default` branch of the `switch` stores for an
unrecognized tab id. -/
def unknownTabData : Json := .obj
  [("error", .bool true), ("message", .str "Unknown tab selected")]

/-- The four tab ids the `switch` recognizes. -/
def knownTabIds : List String :=
  ["live-matches", "league-tables", "team-stats", "recent-results"]

/-- `TabManager.switchTab`, as the trace of externally visible steps it
performs, paired with the (unchanged) object state. The awaited data-loading
call of a recognized tab is abstracted as an `Except` argument (`.ok` the
loaded payload, `.error` an exception raised out of the dispatched work,
which the `catch` turns into the error payload and a failure toast);
`awaitNetwork` marks where the asynchronous work happens. The `default`
branch builds its payload synchronously, raising nothing, and then follows
the same success path. -/
def switchTab (m : TabManager) (tabId competition : String) (season : Option String)
    (dispatched : Except Unit Json) : TabManager × List TabAction :=
  let enter := [TabAction.setActiveTab tabId, TabAction.setLoading true]
  if tabId ∈ knownTabIds then
    match dispatched with
    | .ok d =>
        (m, enter ++
          [ TabAction.awaitNetwork
          , TabAction.setTabData d
          , TabAction.toastSuccess "Data Loaded Successfully"
              (getTabDisplayName tabId ++ " loaded from TheSportsDB API.")
          , TabAction.setLoading false ])
    | .error _ =>
        (m, enter ++
          [ TabAction.awaitNetwork
          , TabAction.toastFailure "Unable to load sports data"
              "There was an issue loading data from the sports API. Please try again."
          , TabAction.setTabData errorTabData
          , TabAction.setLoading false ])
  else
    (m, enter ++
      [ TabAction.setTabData unknownTabData
      , TabAction.toastSuccess "Data Loaded Successfully"
          (getTabDisplayName tabId ++ " loaded from TheSportsDB API.")
      , TabAction.setLoading false ])

/-- A fixed ambient environment for concrete evaluations. -/
def constEnv : Env := ⟨fun _ => "2024-12-01"⟩

/-- The oracle on which every live HTTP call fails. -/
def failOracle : Oracle := fun _ => none

/-- A concrete standings row carrying an explicit goal difference of "0":
the row that separates the two readings of the goal-difference rule. -/
def gdZeroRow : Json := .obj
  [ ("intGoalDifference", .str "0")
  , ("intGoalsFor", .str "5")
  , ("intGoalsAgainst", .str "3") ]

/-- The oracle on which every live HTTP call succeeds with a fixed payload. -/
def okOracle : Oracle := fun _ => some (.bool true)

/-! ## Fetch cache layer: helper lemmas -/

/-- Every branch of `getMockData` carries the `_isMockData: true` marker. -/
theorem getMockData_isMockData (env : Env) (now : Int) (endpoint : String) :
    (getMockData env now endpoint).get "_isMockData" = some (.bool true) := by
  unfold getMockData
  split
  · rfl
  · split
    · rfl
    · split
      · rfl
      · rfl

/-- The live branch always performs exactly one HTTP request. -/
theorem fetchLive_liveCalls (env : Env) (oracle : Oracle) (now : Int) (st : Cache)
    (endpoint : String) : (fetchLive env oracle now st endpoint).liveCalls = 1 := by
  unfold fetchLive
  cases oracle endpoint <;> rfl

/-- A fresh cache hit returns the stored payload, leaves the cache alone and
performs no live call. -/
theorem fetchData_fresh_hit (env : Env) (oracle : Oracle) (now : Int) (st : Cache)
    (key : String) (e : CacheEntry) (hget : cacheGet st key = some e)
    (hfresh : now - e.timestamp < cacheExpiry) :
    fetchData env oracle now st key = ⟨e.data, st, 0⟩ := by
  unfold fetchData
  rw [hget]
  exact if_pos hfresh

/-- Without a fresh cache entry, `fetchData` runs the live branch. -/
theorem fetchData_stale (env : Env) (oracle : Oracle) (now : Int) (st : Cache)
    (key : String)
    (hstale : ∀ e, cacheGet st key = some e → ¬(now - e.timestamp < cacheExpiry)) :
    fetchData env oracle now st key = fetchLive env oracle now st key := by
  unfold fetchData
  cases hget : cacheGet st key with
  | none => rfl
  | some e => exact if_neg (hstale e hget)

/-- A failing live call substitutes the mock payload, touches nothing in the
cache map and counts one live request. -/
theorem fetchData_failure_outcome (env : Env) (oracle : Oracle) (now : Int)
    (st : Cache) (key : String) (hfail : oracle key = none)
    (hstale : ∀ e, cacheGet st key = some e → ¬(now - e.timestamp < cacheExpiry)) :
    fetchData env oracle now st key = ⟨getMockData env now key, st, 1⟩ := by
  rw [fetchData_stale env oracle now st key hstale]
  unfold fetchLive
  rw [hfail]

/-- A successful live call stores `{payload, now}` under the key and returns
the payload. -/
theorem fetchData_success_outcome (env : Env) (oracle : Oracle) (now : Int)
    (st : Cache) (key : String) (payload : Json) (hok : oracle key = some payload)
    (hstale : ∀ e, cacheGet st key = some e → ¬(now - e.timestamp < cacheExpiry)) :
    fetchData env oracle now st key = ⟨payload, cacheSet st key ⟨payload, now⟩, 1⟩ := by
  rw [fetchData_stale env oracle now st key hstale]
  unfold fetchLive
  rw [hok]

/-- Looking up the key just stored finds the stored entry. -/
theorem cacheGet_cacheSet_self (st : Cache) (key : String) (e : CacheEntry) :
    cacheGet (cacheSet st key e) key = some e := by
  unfold cacheSet cacheGet
  simp

/-! ## Claims C1, C2, C3 -/

/-- Claim C1: for every endpoint key on which the live HTTP call fails
(`oracle key = none` covers network errors, non-2xx statuses and unparseable
bodies) and no fresh cache entry short-circuits the call, `fetchData` does
not raise (it is a total function returning a `FetchOutcome`) but returns
exactly the mock data provider substitute, and that substitute always
carries the `_isMockData: true` marker. -/
theorem fetchData_failure_returns_mock (env : Env) (oracle : Oracle) (now : Int)
    (st : Cache) (endpoint : String)
    (hstale : ∀ e, cacheGet st endpoint = some e → ¬(now - e.timestamp < cacheExpiry))
    (hfail : oracle endpoint = none) :
    fetchData env oracle now st endpoint = ⟨getMockData env now endpoint, st, 1⟩ ∧
    (fetchData env oracle now st endpoint).data.get "_isMockData" = some (.bool true) := by
  have h := fetchData_failure_outcome env oracle now st endpoint hfail hstale
  exact ⟨h, by rw [h]; exact getMockData_isMockData env now endpoint⟩

/-- Witness for C1 at a concrete failing endpoint and an empty cache. -/
theorem fetchData_failure_returns_mock_witness :
    (fetchData constEnv failOracle 0 [] "/lookuptable.php?l=4328").data.get "_isMockData"
      = some (.bool true) :=
  (fetchData_failure_returns_mock constEnv failOracle 0 [] "/lookuptable.php?l=4328"
    (fun _ he => Option.noConfusion he) rfl).2

/-- Claim C2: a cache entry younger than the 10-minute TTL is returned
unchanged with no live call; hence, starting cold, a successful fetch at
`t1` followed by a second fetch of the same key at `t2` within the TTL
performs exactly one live call in total (1 then 0) and hands back the cached
payload and unchanged cache, while a fetch at `t3` at or past the TTL
performs a second live call. -/
theorem fetchData_ttl_discipline :
    (∀ (env : Env) (oracle : Oracle) (now : Int) (st : Cache) (key : String)
        (e : CacheEntry), cacheGet st key = some e →
        now - e.timestamp < cacheExpiry →
        fetchData env oracle now st key = ⟨e.data, st, 0⟩) ∧
    (∀ (env : Env) (oracle : Oracle) (st : Cache) (key : String) (payload : Json)
        (t1 t2 t3 : Int), cacheGet st key = none → oracle key = some payload →
        t2 - t1 < cacheExpiry → cacheExpiry ≤ t3 - t1 →
        (fetchData env oracle t1 st key).liveCalls = 1 ∧
        (fetchData env oracle t2 (fetchData env oracle t1 st key).cache key).liveCalls = 0 ∧
        (fetchData env oracle t2 (fetchData env oracle t1 st key).cache key).data = payload ∧
        (fetchData env oracle t2 (fetchData env oracle t1 st key).cache key).cache =
          (fetchData env oracle t1 st key).cache ∧
        (fetchData env oracle t3 (fetchData env oracle t1 st key).cache key).liveCalls = 1) := by
  constructor
  · intro env oracle now st key e hget hfresh
    exact fetchData_fresh_hit env oracle now st key e hget hfresh
  · intro env oracle st key payload t1 t2 t3 hcold hok h2 h3
    have hstale1 : ∀ e, cacheGet st key = some e → ¬(t1 - e.timestamp < cacheExpiry) := by
      intro e he; rw [hcold] at he; exact Option.noConfusion he
    have h1 := fetchData_success_outcome env oracle t1 st key payload hok hstale1
    rw [h1]
    have hget2 : cacheGet (cacheSet st key ⟨payload, t1⟩) key = some ⟨payload, t1⟩ :=
      cacheGet_cacheSet_self st key ⟨payload, t1⟩
    have hsecond := fetchData_fresh_hit env oracle t2 (cacheSet st key ⟨payload, t1⟩) key
      ⟨payload, t1⟩ hget2 h2
    have hthird : fetchData env oracle t3 (cacheSet st key ⟨payload, t1⟩) key =
        fetchLive env oracle t3 (cacheSet st key ⟨payload, t1⟩) key := by
      refine fetchData_stale env oracle t3 _ key ?_
      intro e he
      rw [hget2] at he
      cases he
      exact not_lt.mpr h3
    refine ⟨rfl, ?_, ?_, ?_, ?_⟩
    · rw [hsecond]
    · rw [hsecond]
    · rw [hsecond]
    · rw [hthird]; exact fetchLive_liveCalls env oracle t3 _ key

/-- Witness for C2: a cold cache, a succeeding oracle, a second call 1 ms
later and a third exactly at the TTL. -/
theorem fetchData_ttl_discipline_witness :
    (fetchData constEnv okOracle 0 [] "/k").liveCalls = 1 ∧
    (fetchData constEnv okOracle 1 (fetchData constEnv okOracle 0 [] "/k").cache "/k").liveCalls = 0 ∧
    (fetchData constEnv okOracle 1 (fetchData constEnv okOracle 0 [] "/k").cache "/k").data = .bool true ∧
    (fetchData constEnv okOracle 1 (fetchData constEnv okOracle 0 [] "/k").cache "/k").cache =
      (fetchData constEnv okOracle 0 [] "/k").cache ∧
    (fetchData constEnv okOracle 600000 (fetchData constEnv okOracle 0 [] "/k").cache "/k").liveCalls = 1 :=
  fetchData_ttl_discipline.2 constEnv okOracle [] "/k" (.bool true) 0 1 600000 rfl rfl
    (by decide) (by decide)

/-- Claim C3: the cache is written only by a successful live fetch: a failed
live call leaves the cache map exactly as it was (no negative caching), and
therefore a subsequent `fetchData` for the same key attempts the live fetch
again (one further live call) instead of serving anything from cache. -/
theorem fetchData_failed_call_leaves_cache (env : Env) (oracle : Oracle)
    (t1 t2 : Int) (st : Cache) (key : String)
    (hfail : oracle key = none) (hle : t1 ≤ t2)
    (hstale : ∀ e, cacheGet st key = some e → ¬(t1 - e.timestamp < cacheExpiry)) :
    (fetchData env oracle t1 st key).cache = st ∧
    (fetchData env oracle t2 (fetchData env oracle t1 st key).cache key).liveCalls = 1 := by
  have h1 := fetchData_failure_outcome env oracle t1 st key hfail hstale
  have hstale2 : ∀ e, cacheGet st key = some e → ¬(t2 - e.timestamp < cacheExpiry) := by
    intro e he
    have := hstale e he
    omega
  constructor
  · rw [h1]
  · rw [h1]
    rw [fetchData_stale env oracle t2 st key hstale2]
    exact fetchLive_liveCalls env oracle t2 st key

/-- Witness for C3 at a concrete key, an always-failing oracle and an empty
cache. -/
theorem fetchData_failed_call_leaves_cache_witness :
    (fetchData constEnv failOracle 0 [] "/k").cache = [] ∧
    (fetchData constEnv failOracle 5 (fetchData constEnv failOracle 0 [] "/k").cache "/k").liveCalls = 1 :=
  fetchData_failed_call_leaves_cache constEnv failOracle 0 5 [] "/k" rfl (by decide)
    (fun _ he => Option.noConfusion he)

/-! ## Claim C4: the standings row numeric rules -/

/-- Claim C4 counterexample: a source row that supplies the explicit
goal-difference field `"0"` does not get that parsed value back; the
JavaScript `||` fallback treats the parsed 0 as falsy, so the mapped
`goalDifference` is the recomputed `5 - 3 = 2`, not the supplied 0. The
guard of `fetchStandings` maps exactly this row. -/
theorem mapStandingsRow_explicit_zero_overridden :
    jsParseInt (gdZeroRow.get "intGoalDifference") = some 0 ∧
    (mapStandingsRow gdZeroRow 0).goalDifference = 2 ∧
    (2 : Int) ≠ 0 ∧
    standingsTableOfJson (.obj [("table", .arr [gdZeroRow])]) =
      some [mapStandingsRow gdZeroRow 0] := by
  refine ⟨rfl, rfl, by decide, rfl⟩

/-- Claim C4 (amended): in the rows mapped by `fetchStandings`, the count
fields (`playedGames`, `won`, `draw`, `lost`, `points`, `goalsFor`,
`goalsAgainst`) become 0 when unparsable, while an unparsable rank falls
back to `index + 1`; `goalDifference` equals the parsed explicit field when
that parses to a nonzero value, and equals the recomputed
`goalsFor - goalsAgainst` whenever the explicit field is absent, unparsable
or parses to 0 (the JavaScript falsy fallback). -/
theorem mapStandingsRow_numeric_rules :
    (∀ (row : Json) (idx : Nat),
      (jsParseInt (row.get "intPlayed") = none → (mapStandingsRow row idx).playedGames = 0) ∧
      (jsParseInt (row.get "intWin") = none → (mapStandingsRow row idx).won = 0) ∧
      (jsParseInt (row.get "intDraw") = none → (mapStandingsRow row idx).draw = 0) ∧
      (jsParseInt (row.get "intLoss") = none → (mapStandingsRow row idx).lost = 0) ∧
      (jsParseInt (row.get "intPoints") = none → (mapStandingsRow row idx).points = 0) ∧
      (jsParseInt (row.get "intGoalsFor") = none → (mapStandingsRow row idx).goalsFor = 0) ∧
      (jsParseInt (row.get "intGoalsAgainst") = none → (mapStandingsRow row idx).goalsAgainst = 0) ∧
      (jsParseInt (row.get "intRank") = none → (mapStandingsRow row idx).position = (idx : Int) + 1)) ∧
    (∀ (row : Json) (idx : Nat) (n : Int),
      jsParseInt (row.get "intGoalDifference") = some n → n ≠ 0 →
      (mapStandingsRow row idx).goalDifference = n) ∧
    (∀ (row : Json) (idx : Nat),
      (jsParseInt (row.get "intGoalDifference") = none ∨
        jsParseInt (row.get "intGoalDifference") = some 0) →
      (mapStandingsRow row idx).goalDifference =
        (mapStandingsRow row idx).goalsFor - (mapStandingsRow row idx).goalsAgainst) := by
  refine ⟨fun row idx => ?_, fun row idx n hn hnz => ?_, fun row idx h => ?_⟩
  · refine ⟨fun h => ?_, fun h => ?_, fun h => ?_, fun h => ?_, fun h => ?_, fun h => ?_,
      fun h => ?_, fun h => ?_⟩ <;> simp [mapStandingsRow, jsOrInt, h]
  · simp [mapStandingsRow, jsOrInt, hn, hnz]
  · rcases h with h | h <;> simp [mapStandingsRow, jsOrInt, h]

/-- Witness for C4 (amended): an empty row defaults every count to 0 and the
explicit zero row recomputes the difference. -/
theorem mapStandingsRow_numeric_rules_witness :
    (mapStandingsRow (.obj []) 0).playedGames = 0 ∧
    (mapStandingsRow (.obj []) 4).position = 5 ∧
    (mapStandingsRow gdZeroRow 3).goalDifference =
      (mapStandingsRow gdZeroRow 3).goalsFor - (mapStandingsRow gdZeroRow 3).goalsAgainst :=
  ⟨(mapStandingsRow_numeric_rules.1 (.obj []) 0).1 rfl,
   (mapStandingsRow_numeric_rules.1 (.obj []) 4).2.2.2.2.2.2.2 rfl,
   mapStandingsRow_numeric_rules.2.2 gdZeroRow 3 (Or.inr rfl)⟩

/-! ## Claims C7, C8, C10: the tab routing controller -/

/-- Claim C7: every `switchTab` call first sets the active tab to the
requested id and the loading flag to true, synchronously (the first two
trace steps, before the network suspension), and sets the loading flag to
false exactly once, as the final step, on the success path and on the error
path alike. -/
theorem switchTab_loading_discipline (m : TabManager) (tabId competition : String)
    (season : Option String) (dispatched : Except Unit Json) :
    (switchTab m tabId competition season dispatched).2.take 2 =
      [TabAction.setActiveTab tabId, TabAction.setLoading true] ∧
    TabAction.awaitNetwork ∉ (switchTab m tabId competition season dispatched).2.take 2 ∧
    (switchTab m tabId competition season dispatched).2.getLast? =
      some (TabAction.setLoading false) ∧
    (switchTab m tabId competition season dispatched).2.count (TabAction.setLoading false) = 1 := by
  unfold switchTab
  split
  · cases dispatched <;> exact ⟨rfl, by simp, rfl, rfl⟩
  · exact ⟨rfl, by simp, rfl, rfl⟩

/-- Witness for C7 on a concrete successful switch. -/
theorem switchTab_loading_discipline_witness :
    (switchTab (TabManager.make "live-matches") "league-tables" "PL" none
        (.ok (.str "payload"))).2.count (TabAction.setLoading false) = 1 :=
  (switchTab_loading_discipline (TabManager.make "live-matches") "league-tables" "PL" none
    (.ok (.str "payload"))).2.2.2

/-- Claim C8: an unrecognized tab id still updates the active tab, stores
the `{error: true, message: "Unknown tab selected"}` payload, and takes the
success path: the trace is exactly the synchronous entry steps, the data
write, a success toast (display name "Data") and the loading reset, with no
failure toast anywhere. -/
theorem switchTab_unknown_tab (m : TabManager) (tabId competition : String)
    (season : Option String) (dispatched : Except Unit Json)
    (h : tabId ∉ knownTabIds) :
    (switchTab m tabId competition season dispatched).2 =
      [ TabAction.setActiveTab tabId, TabAction.setLoading true
      , TabAction.setTabData unknownTabData
      , TabAction.toastSuccess "Data Loaded Successfully" "Data loaded from TheSportsDB API."
      , TabAction.setLoading false ] ∧
    unknownTabData = .obj [("error", .bool true), ("message", .str "Unknown tab selected")] ∧
    ∀ title description, TabAction.toastFailure title description ∉
      (switchTab m tabId competition season dispatched).2 := by
  have hne : tabId ≠ "live-matches" ∧ tabId ≠ "league-tables" ∧
      tabId ≠ "team-stats" ∧ tabId ≠ "recent-results" := by
    simp [knownTabIds] at h
    exact h
  have hname : getTabDisplayName tabId = "Data" := by
    unfold getTabDisplayName
    rw [if_neg hne.1, if_neg hne.2.1, if_neg hne.2.2.1, if_neg hne.2.2.2]
  have htrace : (switchTab m tabId competition season dispatched).2 =
      [ TabAction.setActiveTab tabId, TabAction.setLoading true
      , TabAction.setTabData unknownTabData
      , TabAction.toastSuccess "Data Loaded Successfully" "Data loaded from TheSportsDB API."
      , TabAction.setLoading false ] := by
    unfold switchTab
    rw [if_neg h, hname]
    rfl
  refine ⟨htrace, rfl, fun title description => ?_⟩
  rw [htrace]
  simp

/-- Witness for C8 at the concrete unrecognized tab id "stats". -/
theorem switchTab_unknown_tab_witness :
    (switchTab (TabManager.make "live-matches") "stats" "PL" none (.ok (.str "x"))).2 =
      [ TabAction.setActiveTab "stats", TabAction.setLoading true
      , TabAction.setTabData unknownTabData
      , TabAction.toastSuccess "Data Loaded Successfully" "Data loaded from TheSportsDB API."
      , TabAction.setLoading false ] :=
  (switchTab_unknown_tab (TabManager.make "live-matches") "stats" "PL" none (.ok (.str "x"))
    (by decide)).1

/-- Claim C10: `switchTab` never writes the `activeTab` field of the
`TabManager` object itself (only the injected setter is invoked, as the
trace of C7 records): after any switch, `getCurrentTab()` still returns the
constructor-supplied tab, and `isTabActive(t)` is true exactly for that
constructor-supplied tab. -/
theorem switchTab_object_state_frame (initialTab tabId competition : String)
    (season : Option String) (dispatched : Except Unit Json) (t : String) :
    (switchTab (TabManager.make initialTab) tabId competition season dispatched).1 =
      TabManager.make initialTab ∧
    ((switchTab (TabManager.make initialTab) tabId competition season dispatched).1).getCurrentTab
      = initialTab ∧
    (((switchTab (TabManager.make initialTab) tabId competition season dispatched).1).isTabActive t
      = true ↔ t = initialTab) := by
  have hfst : (switchTab (TabManager.make initialTab) tabId competition season dispatched).1 =
      TabManager.make initialTab := by
    unfold switchTab
    cases dispatched <;> split <;> rfl
  refine ⟨hfst, by rw [hfst]; rfl, ?_⟩
  rw [hfst]
  unfold TabManager.isTabActive TabManager.make
  constructor
  · intro hb
    exact (eq_of_beq hb).symm
  · intro ht
    exact beq_of_eq ht.symm

/-- Witness for C10 on a concrete switch away from the initial tab. -/
theorem switchTab_object_state_frame_witness :
    ((switchTab (TabManager.make "live-matches") "league-tables" "PL" none
        (.ok (.str "x"))).1).getCurrentTab = "live-matches" :=
  (switchTab_object_state_frame "live-matches" "league-tables" "PL" none
    (.ok (.str "x")) "league-tables").2.1

/-! ## Claim C9: the static configuration tables -/

/-- Claim C9 counterexample: an unknown competition code does inherit the
Premier League league id and country, but its display name is the generic
"Football League", not the Premier League display name. -/
theorem getCompetitionName_unknown_not_premier_league :
    getLeagueId "XX" = getLeagueId "PL" ∧
    getCountryForCompetition "XX" = getCountryForCompetition "PL" ∧
    getCompetitionName "XX" = "Football League" ∧
    getCompetitionName "PL" = "Premier League" ∧
    getCompetitionName "XX" ≠ getCompetitionName "PL" := by
  refine ⟨rfl, rfl, rfl, rfl, by decide⟩

/-- Claim C9 (amended): for every competition code outside
{PL, PD, SA, BL1, FL1}, the league identifier defaults to the Premier League
identifier "4328", the country label defaults to the Premier League country
"England" and the league slug defaults to the Premier League slug, but the
display name defaults to the generic "Football League", which differs from
the Premier League display name. -/
theorem staticConfig_unknown_code_defaults (c : String)
    (h : c ∉ (["PL", "PD", "SA", "BL1", "FL1"] : List String)) :
    getLeagueId c = "4328" ∧ getLeagueId "PL" = "4328" ∧
    getCountryForCompetition c = "England" ∧ getCountryForCompetition "PL" = "England" ∧
    getLeagueName c = "English_Premier_League" ∧
    getCompetitionName c = "Football League" ∧
    getCompetitionName c ≠ getCompetitionName "PL" := by
  have hne : c ≠ "PL" ∧ c ≠ "PD" ∧ c ≠ "SA" ∧ c ≠ "BL1" ∧ c ≠ "FL1" := by
    simp at h
    exact h
  obtain ⟨h1, h2, h3, h4, h5⟩ := hne
  refine ⟨?_, rfl, ?_, rfl, ?_, ?_, ?_⟩
  · unfold getLeagueId
    rw [if_neg h1, if_neg h2, if_neg h3, if_neg h4, if_neg h5]
  · unfold getCountryForCompetition
    rw [if_neg h1, if_neg h2, if_neg h3, if_neg h4, if_neg h5]
  · unfold getLeagueName
    rw [if_neg h1, if_neg h2, if_neg h3, if_neg h4, if_neg h5]
  · unfold getCompetitionName
    rw [if_neg h1, if_neg h2, if_neg h3, if_neg h4, if_neg h5]
  · unfold getCompetitionName
    rw [if_neg h1, if_neg h2, if_neg h3, if_neg h4, if_neg h5, if_pos rfl]
    decide

/-- Witness for C9 (amended) at the concrete unknown code "XX". -/
theorem staticConfig_unknown_code_defaults_witness :
    getLeagueId "XX" = "4328" ∧ getCountryForCompetition "XX" = "England" ∧
    getCompetitionName "XX" = "Football League" :=
  ⟨(staticConfig_unknown_code_defaults "XX" (by decide)).1,
   (staticConfig_unknown_code_defaults "XX" (by decide)).2.2.1,
   (staticConfig_unknown_code_defaults "XX" (by decide)).2.2.2.2.2.1⟩

/-! ## Claim C6: the analytics summary -/

/-- A response whose standings list is empty. -/
def emptyStandingsResponse : StandingsResponse :=
  ⟨[], "Premier League", "PL", "2024-2025"⟩

/-- A response with no matches. -/
def emptyMatchesResponse : MatchesResponse := ⟨[], 0⟩

/-- Claim C6: the summary never propagates an error (a thrown feed error
yields the all-zero summary), `avgGoalsPerMatch` is the rational 0 — not a
NaN, which the rational model cannot even express, and not an error —
whenever the standings table is empty or the matches-played denominator is
zero, and with a positive denominator it is total goals divided by half the
summed `playedGames`, rounded to one decimal place. -/
theorem fetchAnalyticsData_avg_rules :
    (∀ e, fetchAnalyticsData (.error e) = zeroAnalytics) ∧
    (∀ (s : StandingsResponse) (ms : MatchesResponse), firstTable s = [] →
        (fetchAnalyticsData (.ok (s, ms))).avgGoalsPerMatch = 0) ∧
    (∀ (s : StandingsResponse) (ms : MatchesResponse),
        ((firstTable s).map StandingsRow.playedGames).sum = 0 →
        (fetchAnalyticsData (.ok (s, ms))).avgGoalsPerMatch = 0) ∧
    (∀ (s : StandingsResponse) (ms : MatchesResponse),
        0 < ((firstTable s).map StandingsRow.playedGames).sum →
        (fetchAnalyticsData (.ok (s, ms))).avgGoalsPerMatch =
          roundTo1 ((((firstTable s).map StandingsRow.goalsFor).sum : ℚ) /
            ((((firstTable s).map StandingsRow.playedGames).sum : ℚ) / 2))) := by
  refine ⟨fun e => rfl, fun s ms h => ?_, fun s ms h => ?_, fun s ms h => ?_⟩
  · simp [fetchAnalyticsData, analyticsOfFeeds, h]
  · simp [fetchAnalyticsData, analyticsOfFeeds, h]
  · have hq : 0 < ((((firstTable s).map StandingsRow.playedGames).sum : Int) : ℚ) / 2 := by
      have h0 : (0 : ℚ) < (((firstTable s).map StandingsRow.playedGames).sum : ℚ) := by
        exact_mod_cast h
      linarith
    show (if 0 < ((((firstTable s).map StandingsRow.playedGames).sum : Int) : ℚ) / 2
        then roundTo1 (((((firstTable s).map StandingsRow.goalsFor).sum : Int) : ℚ) /
          (((((firstTable s).map StandingsRow.playedGames).sum : Int) : ℚ) / 2))
        else 0) = _
    rw [if_pos hq]

/-- Witness for C6: the thrown-error feed and the empty standings feed. -/
theorem fetchAnalyticsData_avg_rules_witness :
    fetchAnalyticsData (.error ()) = zeroAnalytics ∧
    (fetchAnalyticsData (.ok (emptyStandingsResponse, emptyMatchesResponse))).avgGoalsPerMatch = 0 :=
  ⟨fetchAnalyticsData_avg_rules.1 (),
   fetchAnalyticsData_avg_rules.2.1 emptyStandingsResponse emptyMatchesResponse rfl⟩

/-! ## Claim C5: helper lemmas for the teams merge -/

/-- The id comparison agrees with propositional equality. -/
theorem teamIdBeq_iff (a b : Option Json) : teamIdBeq a b = true ↔ a = b := by
  unfold teamIdBeq
  exact beq_iff_eq

/-- A false negated Boolean is a true one. -/
theorem not_eq_true_of_eq_false {b : Bool} (h : (!b) = true) : b = false := by
  cases b
  · rfl
  · exact Bool.noConfusion h

/-- Every team kept by the de-duplication core occurs in the input. -/
theorem dedupTeamsFuel_subset : ∀ (fuel : Nat) (ts : List Team),
    ∀ t ∈ dedupTeamsFuel fuel ts, t ∈ ts := by
  intro fuel
  induction fuel with
  | zero =>
      intro ts t ht
      cases ts with
      | nil => cases ht
      | cons a ts => cases ht
  | succ n ih =>
      intro ts t ht
      cases ts with
      | nil => cases ht
      | cons a ts =>
          rw [dedupTeamsFuel] at ht
          rcases List.mem_cons.mp ht with rfl | hmem
          · exact List.mem_cons_self _ _
          · exact List.mem_cons_of_mem _ (List.mem_of_mem_filter (ih _ t hmem))

/-- Every team kept by the de-duplication occurs in the input. -/
theorem dedupTeams_subset (ts : List Team) : ∀ t ∈ dedupTeams ts, t ∈ ts :=
  dedupTeamsFuel_subset ts.length ts

/-- The identifiers surviving the de-duplication core are pairwise
distinct. -/
theorem dedupTeamsFuel_id_nodup : ∀ (fuel : Nat) (ts : List Team),
    ((dedupTeamsFuel fuel ts).map (fun t => t.id)).Nodup := by
  intro fuel
  induction fuel with
  | zero =>
      intro ts
      cases ts with
      | nil => exact List.nodup_nil
      | cons a ts => exact List.nodup_nil
  | succ n ih =>
      intro ts
      cases ts with
      | nil => exact List.nodup_nil
      | cons a ts =>
          rw [dedupTeamsFuel, List.map_cons, List.nodup_cons]
          refine ⟨?_, ih _⟩
          intro hmem
          rcases List.mem_map.mp hmem with ⟨u, hu, huid⟩
          have hufil := dedupTeamsFuel_subset _ _ u hu
          have hnot := List.of_mem_filter hufil
          have hpred := not_eq_true_of_eq_false hnot
          rw [(teamIdBeq_iff u.id a.id).mpr huid] at hpred
          cases hpred

/-- The identifiers surviving the de-duplication are pairwise distinct. -/
theorem dedupTeams_id_nodup (ts : List Team) :
    ((dedupTeams ts).map (fun t => t.id)).Nodup :=
  dedupTeamsFuel_id_nodup ts.length ts

/-- `find?` is unchanged by filtering out elements the predicate rejects. -/
theorem find?_filter_eq (p q : Team → Bool) (l : List Team)
    (himp : ∀ a ∈ l, p a = true → q a = true) :
    (l.filter q).find? p = l.find? p := by
  induction l with
  | nil => rfl
  | cons a l ih =>
      rw [List.filter_cons]
      by_cases hq : q a = true
      · rw [if_pos hq]
        rw [List.find?_cons, List.find?_cons]
        cases hpa : p a
        · exact ih (fun x hx => himp x (List.mem_cons_of_mem _ hx))
        · rfl
      · rw [if_neg hq]
        have hp : p a = false := by
          cases hpa : p a
          · rfl
          · exact absurd (himp a (List.mem_cons_self a l) hpa) hq
        rw [List.find?_cons, hp]
        exact ih (fun x hx => himp x (List.mem_cons_of_mem _ hx))

/-- First occurrence wins for the de-duplication core. -/
theorem dedupTeamsFuel_first_occurrence : ∀ (fuel : Nat) (ts : List Team),
    ∀ t ∈ dedupTeamsFuel fuel ts,
    ts.find? (fun u => teamIdBeq u.id t.id) = some t := by
  intro fuel
  induction fuel with
  | zero =>
      intro ts t ht
      cases ts with
      | nil => cases ht
      | cons a ts => cases ht
  | succ n ih =>
      intro ts t ht
      cases ts with
      | nil => cases ht
      | cons a ts =>
          rw [dedupTeamsFuel] at ht
          rcases List.mem_cons.mp ht with rfl | hmem
          · have hpa : teamIdBeq t.id t.id = true := (teamIdBeq_iff _ _).mpr rfl
            rw [List.find?_cons]
            simp only [hpa]
          · have htf : t ∈ ts.filter (fun u => !(teamIdBeq u.id a.id)) :=
              dedupTeamsFuel_subset _ _ t hmem
            have hne : ¬ (t.id = a.id) := by
              have hnot := List.of_mem_filter htf
              have hpred := not_eq_true_of_eq_false hnot
              intro heq
              rw [(teamIdBeq_iff t.id a.id).mpr heq] at hpred
              cases hpred
            have hfind := ih _ t hmem
            rw [find?_filter_eq (fun u => teamIdBeq u.id t.id)
              (fun u => !(teamIdBeq u.id a.id)) ts ?himp] at hfind
            case himp =>
              intro x hx hpx
              have hxid : x.id = t.id := (teamIdBeq_iff _ _).mp hpx
              show (!(teamIdBeq x.id a.id)) = true
              cases hcon : teamIdBeq x.id a.id
              · rfl
              · exact absurd (hxid ▸ (teamIdBeq_iff _ _).mp hcon) hne
            have hpa : teamIdBeq a.id t.id = false := by
              cases hcon : teamIdBeq a.id t.id
              · rfl
              · exact absurd ((teamIdBeq_iff _ _).mp hcon).symm hne
            rw [List.find?_cons, hpa]
            exact hfind

/-- First occurrence wins: every team the de-duplication keeps is exactly
what a first search for its identifier finds in the input array. -/
theorem dedupTeams_first_occurrence (ts : List Team) : ∀ t ∈ dedupTeams ts,
    ts.find? (fun u => teamIdBeq u.id t.id) = some t :=
  dedupTeamsFuel_first_occurrence ts.length ts

/-- The identifiers of each static mock team list are pairwise distinct. -/
theorem getMockTeams_id_nodup (c : String) :
    ((getMockTeamsForCompetition c).map (fun t => t.id)).Nodup := by
  unfold getMockTeamsForCompetition
  split_ifs <;> decide

/-- After the top-up the identifiers are still pairwise distinct. -/
theorem topUp_dedup_id_nodup (c : String) (ts : List Team) :
    ((topUpTeams c (dedupTeams ts)).map (fun t => t.id)).Nodup := by
  unfold topUpTeams
  split
  · rw [List.map_append, List.nodup_append]
    refine ⟨dedupTeams_id_nodup ts, ?_, ?_⟩
    · have hsub : List.Sublist
          (((getMockTeamsForCompetition c).filter
            (fun t => !((dedupTeams ts).any (fun u => teamIdBeq u.id t.id)))).map
              (fun t => t.id))
          ((getMockTeamsForCompetition c).map (fun t => t.id)) :=
        List.Sublist.map _ (List.filter_sublist _)
      exact List.Nodup.sublist hsub (getMockTeams_id_nodup c)
    · intro x hx hy
      rcases List.mem_map.mp hx with ⟨u, hu, huid⟩
      rcases List.mem_map.mp hy with ⟨v, hv, hvid⟩
      have hnot := List.of_mem_filter hv
      have hpred := not_eq_true_of_eq_false hnot
      have hany : (dedupTeams ts).any (fun w => teamIdBeq w.id v.id) = true :=
        List.any_eq_true.mpr ⟨u, hu, (teamIdBeq_iff _ _).mpr (by rw [huid, hvid])⟩
      rw [hany] at hpred
      cases hpred
  · exact dedupTeams_id_nodup ts

/-! ## Claim C5 -/

/-- Claim C5: `fetchTeams` merges the up-to-three endpoint probes,
de-duplicates by team identifier keeping the first occurrence (the kept
record is what a first search for that identifier finds, and the kept
identifiers are pairwise distinct), tops up from the static per-competition
mock list exactly when fewer than 10 unique teams remain, skipping
identifiers already present, and the result stays duplicate-free; in
particular, with every live call failing, `fetchTeams` for PL returns at
least 10 teams with pairwise distinct identifiers. -/
theorem fetchTeams_merge_dedup_topup :
    (∀ ts : List Team, ((dedupTeams ts).map (fun t => t.id)).Nodup) ∧
    (∀ (ts : List Team), ∀ t ∈ dedupTeams ts,
        ts.find? (fun u => teamIdBeq u.id t.id) = some t) ∧
    (∀ (c : String) (ts : List Team), ¬ ((dedupTeams ts).length < 10) →
        topUpTeams c (dedupTeams ts) = dedupTeams ts) ∧
    (∀ (c : String) (ts : List Team), (dedupTeams ts).length < 10 →
        topUpTeams c (dedupTeams ts) = dedupTeams ts ++
          (getMockTeamsForCompetition c).filter
            (fun t => !((dedupTeams ts).any (fun u => teamIdBeq u.id t.id)))) ∧
    (∀ (c : String) (ts : List Team),
        ((topUpTeams c (dedupTeams ts)).map (fun t => t.id)).Nodup) ∧
    (10 ≤ (fetchTeams constEnv failOracle 0 [] "PL" none).1.teams.length ∧
      ((fetchTeams constEnv failOracle 0 [] "PL" none).1.teams.map (fun t => t.id)).Nodup) := by
  refine ⟨dedupTeams_id_nodup, dedupTeams_first_occurrence,
    fun c ts h => ?_, fun c ts h => ?_, topUp_dedup_id_nodup, by decide, by decide⟩
  · unfold topUpTeams
    rw [if_neg h]
  · unfold topUpTeams
    rw [if_pos h]

/-- Witness for C5: top-up from an empty merge at PL. -/
theorem fetchTeams_merge_dedup_topup_witness :
    topUpTeams "PL" (dedupTeams []) = dedupTeams [] ++
      (getMockTeamsForCompetition "PL").filter
        (fun t => !((dedupTeams []).any (fun u => teamIdBeq u.id t.id))) :=
  fetchTeams_merge_dedup_topup.2.2.2.1 "PL" [] (by decide)

end Footballytics
